import Mathlib

/-
  Verification of the peer-to-peer session-synchronization layer of the
  ambulance-chase game (src/src/game/net.ts, netSync.ts, audio.ts).

  Shallow embedding conventions:
  * JavaScript numbers are modelled as rationals (ℚ); `Math.round(x)` is
    floor (x + 1/2), matching JS round-half-up semantics on exact values.
  * `Math.PI` is the IEEE-754 double 3.141592653589793, an exact rational,
    embedded as `piQ` below.
  * The JSON wire stage is cut out: JSON.stringify/JSON.parse round-trip the
    compact object tree exactly, so serialize/deserialize are modelled as
    functions to/from a `CompactSnapshot` record mirroring the JSON object
    produced by `serializeSnapshot` and consumed by `deserializeSnapshot`.
  * try/catch fallibility is modelled with Option.
-/

namespace AmbChase

/-- JS `Math.round` on an exact value: floor (x + 1/2). -/
def jsRound (q : ℚ) : ℚ := (⌊q + 1/2⌋ : ℤ)

/-- netSync.ts `roundNum`: `Math.round(n * 10) / 10` — quantize to one decimal. -/
def roundNum (q : ℚ) : ℚ := ((⌊q * 10 + 1/2⌋ : ℤ) : ℚ) / 10

-- === KEY SERIALIZATION (netSync.ts, serializeKeys / deserializeKeys) ===

/-- types.ts `Keys`: the six-button input state. -/
structure Keys where
  up : Bool
  down : Bool
  left : Bool
  right : Bool
  space : Bool
  honk : Bool
  deriving DecidableEq, Repr

/-- netSync.ts `serializeKeys`: pack the six booleans into one byte by bitwise or. -/
def serializeKeys (k : Keys) : ℕ :=
  (if k.up then 1 else 0) |||
  (if k.down then 2 else 0) |||
  (if k.left then 4 else 0) |||
  (if k.right then 8 else 0) |||
  (if k.space then 16 else 0) |||
  (if k.honk then 32 else 0)

/-- netSync.ts `deserializeKeys`: unpack the byte via bitwise and + truthiness. -/
def deserializeKeys (byte : ℕ) : Keys where
  up := byte &&& 1 != 0
  down := byte &&& 2 != 0
  left := byte &&& 4 != 0
  right := byte &&& 8 != 0
  space := byte &&& 16 != 0
  honk := byte &&& 32 != 0

-- === MESSAGE KINDS AND BACKPRESSURE (net.ts) ===

/-- net.ts `NetMessageType`: the closed union of message kinds. -/
inductive NetMessageType where
  | keys | snapshot | fullSync | start | ping | pong
  | modeSelect | rematch | chat | briefing | upgrade
  | upgradeChoice | ready | syncAck
  deriving DecidableEq, Repr

/-- net.ts sendReliable: `msg.type !== 'snapshot' && msg.type !== 'keys' &&
    msg.type !== 'ping' && msg.type !== 'pong'`. -/
def isCritical (t : NetMessageType) : Bool :=
  t != .snapshot && t != .keys && t != .ping && t != .pong

/-- net.ts: 128 KB buffered-byte limit for non-critical messages. -/
def bufferLimit : ℕ := 128 * 1024

/-- net.ts `GameNetwork.sendReliable`, reduced to its send decision: returns
    true iff `dataConn.send` is invoked for this message.  The channel-open
    check comes first; then non-critical messages are dropped when the
    channel's `bufferedAmount` exceeds the 128 KB limit. -/
def sendDecision (chOpen : Bool) (bufferedAmount : ℕ) (t : NetMessageType) : Bool :=
  if !chOpen then false
  else if !isCritical t && bufferedAmount > bufferLimit then false
  else true

-- === SNAPSHOT DATA MODEL (types.ts) ===

/-- types.ts `SnapshotEntity`: ambulance kinematic state. -/
structure SnapshotEntity where
  x : ℚ
  y : ℚ
  vx : ℚ
  vy : ℚ
  angle : ℚ
  health : ℚ
  speed : ℚ
  nitroTimer : ℚ
  deriving DecidableEq, Repr

/-- types.ts `SnapshotRunner`. -/
structure SnapshotRunner where
  x : ℚ
  y : ℚ
  vx : ℚ
  vy : ℚ
  angle : ℚ
  speed : ℚ
  stamina : ℚ
  playerHealth : ℚ
  invisibleTimer : ℚ
  speedBoostTimer : ℚ
  caughtTimer : ℚ
  deriving DecidableEq, Repr

/-- types.ts `SnapshotPatient` (optional `caughtBy?: 0 | 1` included). -/
structure SnapshotPatient where
  x : ℚ
  y : ℚ
  vx : ℚ
  vy : ℚ
  caught : Bool
  caughtBy : Option ℕ
  health : ℚ
  panicLevel : ℚ
  stunTimer : ℚ
  storyIdx : ℚ
  deriving DecidableEq, Repr

/-- types.ts `SnapshotPowerUp`. -/
structure SnapshotPowerUp where
  x : ℚ
  y : ℚ
  type : String
  collected : Bool
  deriving DecidableEq, Repr

/-- types.ts traffic-car element of `StateSnapshot.trafficCars`. -/
structure SnapshotTrafficCar where
  x : ℚ
  y : ℚ
  vx : ℚ
  vy : ℚ
  angle : ℚ
  deriving DecidableEq, Repr

/-- types.ts flash-message element `{ text, timer, color }`. -/
structure FlashMessage where
  text : String
  timer : ℚ
  color : String
  deriving DecidableEq, Repr

/-- types.ts `StateSnapshot.activeEvent` object. -/
structure ActiveEvent where
  type : String
  timer : ℚ
  x : ℚ
  y : ℚ
  deriving DecidableEq, Repr

/-- types.ts `StateSnapshot`.  Optional (`?:`) fields are `Option`s; the
    JS `null`/`undefined` distinction on `activeEvent` is collapsed to
    `none` (the code only ever tests it for truthiness). -/
structure StateSnapshot where
  seq : ℚ
  ts : ℚ
  amb1 : SnapshotEntity
  amb2 : Option SnapshotEntity
  runner1 : Option SnapshotRunner
  patients : List SnapshotPatient
  powerUps : List SnapshotPowerUp
  trafficCars : List SnapshotTrafficCar
  timeLeft : ℚ
  scores : ℚ × ℚ
  screen : String
  comboCount : ℚ
  comboTimer : ℚ
  cameraShake : ℚ
  audioEvents : List String
  flashMessages : List FlashMessage
  derbyRound : Option ℚ
  derbyWins : Option (ℚ × ℚ)
  activeEvent : Option ActiveEvent
  nearMissCombo : Option ℚ
  isDrifting : Option Bool
  deriving DecidableEq, Repr

-- === SNAPSHOT CODEC (netSync.ts, serializeSnapshot / deserializeSnapshot) ===

/-- The compact patient tuple `[x, y, vx, vy, caught01, health, panicLevel,
    stunTimer, storyIdx]`; the boolean is carried as the number 0 or 1. -/
structure CompactPatient where
  x : ℚ
  y : ℚ
  vx : ℚ
  vy : ℚ
  caught01 : ℚ
  health : ℚ
  panicLevel : ℚ
  stunTimer : ℚ
  storyIdx : ℚ
  deriving DecidableEq, Repr

/-- The compact power-up tuple `[x, y, type, collected01]`. -/
structure CompactPowerUp where
  x : ℚ
  y : ℚ
  type : String
  collected01 : ℚ
  deriving DecidableEq, Repr

/-- The JSON object built by `serializeSnapshot` (field names as in the code:
    q, t, a, p, u, c, tl, sc, sr, cc, ct, cs, ae, fm, and the conditional
    a2, r1, dr, dw, ev, nm, id).  JSON.stringify/parse round-trips this tree
    exactly, so the string stage is elided. -/
structure CompactSnapshot where
  q : ℚ
  t : ℚ
  a : SnapshotEntity
  p : List CompactPatient
  u : List CompactPowerUp
  c : List SnapshotTrafficCar
  tl : ℚ
  sc : ℚ × ℚ
  sr : String
  cc : ℚ
  ct : ℚ
  cs : ℚ
  ae : List String
  fm : List FlashMessage
  a2 : Option SnapshotEntity
  r1 : Option SnapshotRunner
  dr : Option ℚ
  dw : Option (ℚ × ℚ)
  ev : Option ActiveEvent
  nm : Option ℚ
  id : Option ℚ
  deriving DecidableEq, Repr

/-- Entity tuple written by `serializeSnapshot`: positions, velocities, angle,
    speed and nitroTimer quantized with `roundNum`; health passed through raw. -/
def encEntity (e : SnapshotEntity) : SnapshotEntity where
  x := roundNum e.x
  y := roundNum e.y
  vx := roundNum e.vx
  vy := roundNum e.vy
  angle := roundNum e.angle
  health := e.health
  speed := roundNum e.speed
  nitroTimer := roundNum e.nitroTimer

/-- Runner tuple written by `serializeSnapshot`; playerHealth passed raw. -/
def encRunner (r : SnapshotRunner) : SnapshotRunner where
  x := roundNum r.x
  y := roundNum r.y
  vx := roundNum r.vx
  vy := roundNum r.vy
  angle := roundNum r.angle
  speed := roundNum r.speed
  stamina := roundNum r.stamina
  playerHealth := r.playerHealth
  invisibleTimer := roundNum r.invisibleTimer
  speedBoostTimer := roundNum r.speedBoostTimer
  caughtTimer := roundNum r.caughtTimer

/-- Patient tuple written by `serializeSnapshot`; note `caughtBy` is never
    serialized, and `caught` becomes `1`/`0`. -/
def encPatient (p : SnapshotPatient) : CompactPatient where
  x := roundNum p.x
  y := roundNum p.y
  vx := roundNum p.vx
  vy := roundNum p.vy
  caught01 := if p.caught then 1 else 0
  health := roundNum p.health
  panicLevel := roundNum p.panicLevel
  stunTimer := roundNum p.stunTimer
  storyIdx := p.storyIdx

/-- Power-up tuple written by `serializeSnapshot`. -/
def encPowerUp (pu : SnapshotPowerUp) : CompactPowerUp where
  x := roundNum pu.x
  y := roundNum pu.y
  type := pu.type
  collected01 := if pu.collected then 1 else 0

/-- Traffic-car tuple written by `serializeSnapshot`. -/
def encTrafficCar (tc : SnapshotTrafficCar) : SnapshotTrafficCar where
  x := roundNum tc.x
  y := roundNum tc.y
  vx := roundNum tc.vx
  vy := roundNum tc.vy
  angle := roundNum tc.angle

/-- netSync.ts `serializeSnapshot` (up to the elided JSON.stringify):
    `t` is `Math.round(snap.ts)` (whole integer!); `dr`/`dw` are written only
    when `derbyRound` is present; `ev` only when `activeEvent` is truthy;
    `nm` only when `nearMissCombo` is truthy (nonzero); `id = 1` only when
    `isDrifting` is true. -/
def serializeSnapshot (snap : StateSnapshot) : CompactSnapshot where
  q := snap.seq
  t := jsRound snap.ts
  a := encEntity snap.amb1
  p := snap.patients.map encPatient
  u := snap.powerUps.map encPowerUp
  c := snap.trafficCars.map encTrafficCar
  tl := roundNum snap.timeLeft
  sc := snap.scores
  sr := snap.screen
  cc := snap.comboCount
  ct := roundNum snap.comboTimer
  cs := roundNum snap.cameraShake
  ae := snap.audioEvents
  fm := snap.flashMessages
  a2 := snap.amb2.map encEntity
  r1 := snap.runner1.map encRunner
  dr := snap.derbyRound
  dw := match snap.derbyRound with
        | some _ => snap.derbyWins
        | none => none
  ev := snap.activeEvent.map fun e =>
        { type := e.type, timer := roundNum e.timer, x := roundNum e.x, y := roundNum e.y }
  nm := match snap.nearMissCombo with
        | some v => if v ≠ 0 then some v else none
        | none => none
  id := match snap.isDrifting with
        | some b => if b then some 1 else none
        | none => none

/-- Compact-format branch of netSync.ts `deserializeSnapshot` (the input has
    a `q` field and no `seq` field, so the legacy branch is not taken):
    `caught`/`collected` decode by JS truthiness (`!!n`), `ae`/`fm` fall back
    to `[]` when absent (always present here), `nearMissCombo := c.nm || 0`,
    `isDrifting := !!c.id`, and `caughtBy` is never reconstructed. -/
def deserializeSnapshot (c : CompactSnapshot) : StateSnapshot where
  seq := c.q
  ts := c.t
  amb1 := c.a
  amb2 := c.a2
  runner1 := c.r1
  patients := c.p.map fun p =>
    { x := p.x, y := p.y, vx := p.vx, vy := p.vy,
      caught := decide (p.caught01 ≠ (0 : ℚ)), caughtBy := none,
      health := p.health, panicLevel := p.panicLevel,
      stunTimer := p.stunTimer, storyIdx := p.storyIdx }
  powerUps := c.u.map fun u =>
    { x := u.x, y := u.y, type := u.type, collected := decide (u.collected01 ≠ (0 : ℚ)) }
  trafficCars := c.c
  timeLeft := c.tl
  scores := c.sc
  screen := c.sr
  comboCount := c.cc
  comboTimer := c.ct
  cameraShake := c.cs
  audioEvents := c.ae
  flashMessages := c.fm
  derbyRound := c.dr
  derbyWins := match c.dr with
               | some _ => c.dw
               | none => none
  activeEvent := c.ev
  nearMissCombo := some (match c.nm with
                         | some v => v
                         | none => 0)
  isDrifting := some (match c.id with
                      | some v => decide (v ≠ (0 : ℚ))
                      | none => false)

-- === INTERPOLATION (netSync.ts) ===

/-- `Math.PI`: the IEEE-754 double 3.141592653589793, an exact rational. -/
def piQ : ℚ := 884279719003555 / 281474976710656

/-- netSync.ts `lerpNum`: `a + (b - a) * t`. -/
def lerpNum (a b t : ℚ) : ℚ := a + (b - a) * t

/-- First loop of `lerpAngle`: `while (diff > Math.PI) diff -= Math.PI * 2`. -/
def normAngleUp (d : ℚ) : ℚ :=
  if h : piQ < d then normAngleUp (d - piQ * 2) else d
termination_by (⌈(d - piQ) / (piQ * 2)⌉).toNat
decreasing_by
  have hpi : (0 : ℚ) < piQ * 2 := by norm_num [piQ]
  have h1 : (0 : ℚ) < (d - piQ) / (piQ * 2) := by
    apply div_pos (by linarith) hpi
  have h2 : (1 : ℤ) ≤ ⌈(d - piQ) / (piQ * 2)⌉ := by
    have := Int.ceil_pos.mpr h1
    omega
  have h3 : (d - piQ * 2 - piQ) / (piQ * 2) = (d - piQ) / (piQ * 2) - 1 := by
    field_simp
    ring
  rw [h3, Int.ceil_sub_one]
  omega

/-- Second loop of `lerpAngle`: `while (diff < -Math.PI) diff += Math.PI * 2`. -/
def normAngleDown (d : ℚ) : ℚ :=
  if h : d < -piQ then normAngleDown (d + piQ * 2) else d
termination_by (⌈(-d - piQ) / (piQ * 2)⌉).toNat
decreasing_by
  have hpi : (0 : ℚ) < piQ * 2 := by norm_num [piQ]
  have h1 : (0 : ℚ) < (-d - piQ) / (piQ * 2) := by
    apply div_pos (by linarith) hpi
  have h2 : (1 : ℤ) ≤ ⌈(-d - piQ) / (piQ * 2)⌉ := by
    have := Int.ceil_pos.mpr h1
    omega
  have h3 : (-(d + piQ * 2) - piQ) / (piQ * 2) = (-d - piQ) / (piQ * 2) - 1 := by
    field_simp
    ring
  rw [h3, Int.ceil_sub_one]
  omega

/-- netSync.ts `lerpAngle`: normalize the difference with the two while loops
    (run in source order), then `a + diff * t`. -/
def lerpAngle (a b t : ℚ) : ℚ :=
  a + normAngleDown (normAngleUp (b - a)) * t

/-- netSync.ts `lerpEntity`: positions/velocities/speed lerped, angle via
    `lerpAngle`, health and nitroTimer snapped to the new snapshot. -/
def lerpEntity (a b : SnapshotEntity) (t : ℚ) : SnapshotEntity where
  x := lerpNum a.x b.x t
  y := lerpNum a.y b.y t
  vx := lerpNum a.vx b.vx t
  vy := lerpNum a.vy b.vy t
  angle := lerpAngle a.angle b.angle t
  health := b.health
  speed := lerpNum a.speed b.speed t
  nitroTimer := b.nitroTimer

/-- netSync.ts `lerpRunner`. -/
def lerpRunner (a b : SnapshotRunner) (t : ℚ) : SnapshotRunner where
  x := lerpNum a.x b.x t
  y := lerpNum a.y b.y t
  vx := lerpNum a.vx b.vx t
  vy := lerpNum a.vy b.vy t
  angle := lerpAngle a.angle b.angle t
  speed := lerpNum a.speed b.speed t
  stamina := lerpNum a.stamina b.stamina t
  playerHealth := b.playerHealth
  invisibleTimer := b.invisibleTimer
  speedBoostTimer := b.speedBoostTimer
  caughtTimer := b.caughtTimer

/-- netSync.ts `interpolateSnapshots`: `t` is clamped to [0, 1]; patients and
    traffic cars pair `curr`'s list index-wise against `prev`'s (a missing
    `prev` partner — or a caught patient — snaps to `curr`); power-ups and all
    discrete fields snap to `curr`. -/
def interpolateSnapshots (prev curr : StateSnapshot) (t : ℚ) : StateSnapshot :=
  let clamped := max 0 (min 1 t)
  { seq := curr.seq
    ts := lerpNum prev.ts curr.ts clamped
    amb1 := lerpEntity prev.amb1 curr.amb1 clamped
    patients := curr.patients.enum.map fun ic =>
      let i := ic.1
      let cp := ic.2
      match prev.patients[i]? with
      | none => cp
      | some pp =>
        if cp.caught then cp
        else
          { cp with
            x := lerpNum pp.x cp.x clamped
            y := lerpNum pp.y cp.y clamped
            vx := lerpNum pp.vx cp.vx clamped
            vy := lerpNum pp.vy cp.vy clamped }
    powerUps := curr.powerUps
    trafficCars := curr.trafficCars.enum.map fun ic =>
      let i := ic.1
      let ct := ic.2
      match prev.trafficCars[i]? with
      | none => ct
      | some pt =>
        { x := lerpNum pt.x ct.x clamped
          y := lerpNum pt.y ct.y clamped
          vx := lerpNum pt.vx ct.vx clamped
          vy := lerpNum pt.vy ct.vy clamped
          angle := lerpAngle pt.angle ct.angle clamped }
    timeLeft := lerpNum prev.timeLeft curr.timeLeft clamped
    scores := curr.scores
    screen := curr.screen
    comboCount := curr.comboCount
    comboTimer := curr.comboTimer
    cameraShake := lerpNum prev.cameraShake curr.cameraShake clamped
    audioEvents := curr.audioEvents
    flashMessages := curr.flashMessages
    amb2 := match prev.amb2, curr.amb2 with
            | some pa, some ca => some (lerpEntity pa ca clamped)
            | _, _ => curr.amb2
    runner1 := match prev.runner1, curr.runner1 with
               | some pr, some cr => some (lerpRunner pr cr clamped)
               | _, _ => curr.runner1
    derbyRound := curr.derbyRound
    derbyWins := curr.derbyWins
    -- the source never assigns these three on the interpolated result,
    -- so they are undefined (none):
    activeEvent := none
    nearMissCombo := none
    isDrifting := none }

-- === CONNECTION STATE MACHINE (net.ts) ===

/-- net.ts `ConnectionState`. -/
inductive ConnectionState where
  | idle | offering | answering | connecting | connected | disconnected
  deriving DecidableEq, Repr, Fintype

/-- The `GameNetwork` operations and callbacks that invoke `setState`,
    as events of a transition system. -/
inductive NetEvent where
  /-- `createRoom` entry: `setState('offering')`. -/
  | createRoom
  /-- `createRoom` 15 s timeout: `setState('disconnected')`. -/
  | createTimeout
  /-- host peer error `unavailable-id` (room-code collision): retries
      `createRoom`, which lands back in `offering`. -/
  | peerUnavailable
  /-- any other host peer error: `setState('disconnected')`. -/
  | peerErrorOther
  /-- `joinRoom` entry: `setState('answering')`. -/
  | joinRoom
  /-- `joinRoom` 15 s timeout: `setState('disconnected')`. -/
  | joinTimeout
  /-- guest peer error `peer-unavailable` (room not found): `disconnected`. -/
  | joinPeerUnavailable
  /-- any other guest peer error or DataConnection error during join. -/
  | joinErrorOther
  /-- `handleConnection` entry: `setState('connecting')`. -/
  | incomingConn
  /-- DataConnection `open` callback: `setState('connected')`. -/
  | connOpen
  /-- DataConnection `close` callback: `disconnected` only if currently
      `connected` (ignored during setup). -/
  | connClose
  /-- DataConnection `error` callback: `disconnected` only if NOT currently
      `connected` (when connected, only logged; ping timeout is relied on). -/
  | connError
  /-- ping-interval tick with no pong for more than 20 s. -/
  | pingTimeout
  /-- ping-interval tick observing the channel no longer open. -/
  | pingChannelClosed
  /-- `destroy()`: stops timers, closes everything, `setState('idle')`. -/
  | destroy
  deriving DecidableEq, Repr, Fintype

/-- The `ConnectionState` transition function induced by net.ts (each branch
    mirrors the `setState` call sites listed on the events). -/
def stepState (s : ConnectionState) (e : NetEvent) : ConnectionState :=
  match e with
  | .createRoom => .offering
  | .createTimeout => .disconnected
  | .peerUnavailable => .offering
  | .peerErrorOther => .disconnected
  | .joinRoom => .answering
  | .joinTimeout => .disconnected
  | .joinPeerUnavailable => .disconnected
  | .joinErrorOther => .disconnected
  | .incomingConn => .connecting
  | .connOpen => .connected
  | .connClose => if s = .connected then .disconnected else s
  | .connError => if s = .connected then s else .disconnected
  | .pingTimeout => .disconnected
  | .pingChannelClosed => .disconnected
  | .destroy => .idle

/-- Run a sequence of events from the initial `idle` state. -/
def runNet (evs : List NetEvent) : ConnectionState :=
  evs.foldl stepState .idle

/-- Position of a state along the claimed one-directional chain
    idle → offering/answering → connecting → connected → disconnected. -/
def stateRank : ConnectionState → ℕ
  | .idle => 0
  | .offering => 1
  | .answering => 1
  | .connecting => 2
  | .connected => 3
  | .disconnected => 4

/-- Failure-detection callbacks and timer events: everything except the
    deliberate session operations (createRoom/joinRoom/destroy), the
    collision retry, and the establishment callbacks. -/
def isDetectionEvent : NetEvent → Bool
  | .createTimeout | .peerErrorOther | .joinTimeout | .joinPeerUnavailable
  | .joinErrorOther | .connClose | .connError | .pingTimeout
  | .pingChannelClosed => true
  | _ => false

-- === RECEIVE HANDLER (net.ts setupReliableChannel + audio.ts onMessage) ===

/-- Message payloads, as far as the receive path inspects them.  A snapshot
    payload is the JSON string sent by the host; it is represented by the
    outcome of `deserializeSnapshot` on it (`none` = the string makes
    `JSON.parse`/field access throw). -/
inductive NetData where
  | nothing
  | keysBytes (bytes : List ℕ)
  | snapshotStr (parse : Option CompactSnapshot)
  | other
  deriving DecidableEq, Repr

/-- net.ts `NetMessage`: `{ type, seq, ts, data }`. -/
structure NetMessage where
  type : NetMessageType
  seq : ℚ
  ts : ℚ
  data : NetData
  deriving DecidableEq, Repr

/-- A raw datum delivered on the channel: either it parses into a
    `NetMessage` (object with a `type` field / parseable string / buffer),
    or any step of the parse throws (`malformed`). -/
inductive RawDatum where
  | parsed (msg : NetMessage)
  | malformed
  deriving DecidableEq, Repr

/-- The session state the receive path can touch: the `GameNetwork` ping
    fields plus the guest's stored snapshot pair (audio.ts `s.mp`). -/
structure SessionState where
  ping : ℚ
  lastPongReceived : ℚ
  prevSnapshot : Option StateSnapshot
  currSnapshot : Option StateSnapshot
  snapshotTime : ℚ
  deriving DecidableEq, Repr

/-- Externally visible actions of the receive path. -/
inductive NetEffect where
  /-- the parse `catch` branch: `log('Parse error', ...)`. -/
  | loggedParseError
  /-- reply to an incoming ping: `sendReliable({type:'pong', seq, ...})`. -/
  | sentPong (seq : ℚ)
  /-- the message was handed to the application `onMessage` dispatch. -/
  | delivered (t : NetMessageType)
  deriving DecidableEq, Repr

/-- The `conn.on('data')` handler of net.ts composed with the guest's
    audio.ts `onMessage` snapshot case.  `now` is `performance.now()` at
    receipt, `lastPingSent` the recorded send time of the last ping.
    A malformed datum is caught and only logged; a pong updates the ping
    statistics; a ping is answered immediately; a guest snapshot whose
    payload deserializes replaces curr (demoting it to prev); a snapshot
    payload that throws is swallowed by the inner try/catch. -/
def handleRaw (isGuest : Bool) (now lastPingSent : ℚ) (st : SessionState)
    (raw : RawDatum) : SessionState × List NetEffect :=
  match raw with
  | .malformed => (st, [.loggedParseError])
  | .parsed msg =>
    if msg.type = .pong then
      ({ st with ping := jsRound ((now - lastPingSent) / 2), lastPongReceived := now }, [])
    else if msg.type = .ping then
      (st, [.sentPong msg.seq])
    else if msg.type = .snapshot then
      if isGuest then
        match msg.data with
        | .snapshotStr (some c) =>
          ({ st with prevSnapshot := st.currSnapshot,
                     currSnapshot := some (deserializeSnapshot c),
                     snapshotTime := now }, [.delivered .snapshot])
        | _ => (st, [.delivered .snapshot])
      else (st, [.delivered .snapshot])
    else (st, [.delivered msg.type])

/-- Process a whole list of received data in order. -/
def handleAll (isGuest : Bool) (now lastPingSent : ℚ) (st : SessionState) :
    List RawDatum → SessionState × List NetEffect
  | [] => (st, [])
  | raw :: rest =>
    let out := handleRaw isGuest now lastPingSent st raw
    let next := handleAll isGuest now lastPingSent out.1 rest
    (next.1, out.2 ++ next.2)

-- === LIVENESS MONITOR (net.ts startPing) ===

/-- net.ts: `setInterval(..., 3000)` — heartbeat period in ms. -/
def pingIntervalMs : ℚ := 3000

/-- net.ts: `performance.now() - this.lastPongReceived > 20000` — timeout. -/
def pongTimeoutMs : ℚ := 20000

/-- State of the heartbeat loop: the recorded last-pong time, whether the
    interval timer is running, the connection state, and how many times
    `setState` actually changed the state to `disconnected`. -/
structure PingLoop where
  lastPongReceived : ℚ
  active : Bool
  connState : ConnectionState
  disconnectCount : ℕ
  deriving DecidableEq, Repr

/-- `startPing()` at time `t0`: `lastPongReceived = performance.now()`,
    interval armed, connection just opened. -/
def startPingState (t0 : ℚ) : PingLoop :=
  { lastPongReceived := t0, active := true, connState := .connected, disconnectCount := 0 }

/-- One firing of the ping interval at time `now` (net.ts startPing body):
    if armed and no pong for more than 20 s, transition to `disconnected`
    (counted only if it changes the state, matching `setState`) and stop the
    timer; likewise if the channel is no longer open; otherwise send a ping. -/
def pingTick (chOpen : Bool) (now : ℚ) (s : PingLoop) : PingLoop :=
  if ¬s.active then s
  else if 0 < s.lastPongReceived ∧ now - s.lastPongReceived > pongTimeoutMs then
    { s with connState := .disconnected, active := false,
             disconnectCount :=
               s.disconnectCount + (if s.connState = .disconnected then 0 else 1) }
  else if ¬chOpen then
    { s with connState := .disconnected, active := false,
             disconnectCount :=
               s.disconnectCount + (if s.connState = .disconnected then 0 else 1) }
  else s

/-- A pong arriving at time `now` (net.ts data handler):
    `lastPongReceived = performance.now()`. -/
def pongArrive (now : ℚ) (s : PingLoop) : PingLoop :=
  { s with lastPongReceived := now }

/-- Timeline events of the liveness monitor. -/
inductive LiveEvent where
  | tick (t : ℚ)
  | pong (t : ℚ)
  deriving DecidableEq, Repr

/-- Run the liveness monitor over a timeline. -/
def liveRun (chOpen : Bool) (s : PingLoop) : List LiveEvent → PingLoop
  | [] => s
  | .tick t :: rest => liveRun chOpen (pingTick chOpen t s) rest
  | .pong t :: rest => liveRun chOpen (pongArrive t s) rest

/-- "At least one reply per timeout window": every tick happens within
    20 s of the last recorded pong (initially the `startPing` time). -/
def covered (lastPong : ℚ) : List LiveEvent → Prop
  | [] => True
  | .tick t :: rest => t - lastPong ≤ pongTimeoutMs ∧ covered lastPong rest
  | .pong t :: rest => covered t rest

-- === FULL-SYNC RETRY (audio.ts startMultiplayerGame) ===

/-- audio.ts: the three retry `setTimeout` delays (ms) after the initial send. -/
def retryDelays : List ℚ := [500, 1200, 2500]

/-- Whether the retry timer scheduled at delay `d` resends the payload:
    it fires only if no `syncAck` arrived before it (an ack at time `ta ≤ d`
    sets `syncAcked` and clears the pending timers). -/
def timerFires (ackTime : Option ℚ) (d : ℚ) : Bool :=
  match ackTime with
  | none => true
  | some ta => decide (d < ta)

/-- Total number of `fullSync` sends: the unconditional initial send plus
    every retry timer that fires. -/
def fullSyncSendCount (ackTime : Option ℚ) : ℕ :=
  1 + (retryDelays.filter (timerFires ackTime)).length

-- === ROUND-TRIP CLOSENESS METRIC (spec §8: 0.1 per numeric field, exact
--     on discrete/boolean fields) ===

/-- Index-wise lifting of a relation to lists of equal length. -/
def listRel (R : α → α → Prop) : List α → List α → Prop
  | [], [] => True
  | a :: as, b :: bs => R a b ∧ listRel R as bs
  | _, _ => False

/-- Lifting of a relation to `Option`: both absent, or both present and related. -/
def optRel (R : α → α → Prop) : Option α → Option α → Prop
  | none, none => True
  | some a, some b => R a b
  | _, _ => False

instance listRelDecidable {R : α → α → Prop} [DecidableRel R] :
    ∀ l1 l2 : List α, Decidable (listRel R l1 l2)
  | [], [] => .isTrue trivial
  | [], _ :: _ => .isFalse fun h => h
  | _ :: _, [] => .isFalse fun h => h
  | a :: as, b :: bs =>
    @instDecidableAnd _ _ _ (listRelDecidable as bs)

instance {R : α → α → Prop} [DecidableRel R] :
    ∀ o1 o2 : Option α, Decidable (optRel R o1 o2)
  | none, none => .isTrue trivial
  | none, some _ => .isFalse fun h => h
  | some _, none => .isFalse fun h => h
  | some _, some _ => inferInstanceAs (Decidable (R _ _))

/-- Every numeric field within 1/10. -/
def entClose (a b : SnapshotEntity) : Prop :=
  |a.x - b.x| ≤ 1/10 ∧ |a.y - b.y| ≤ 1/10 ∧ |a.vx - b.vx| ≤ 1/10 ∧
  |a.vy - b.vy| ≤ 1/10 ∧ |a.angle - b.angle| ≤ 1/10 ∧
  |a.health - b.health| ≤ 1/10 ∧ |a.speed - b.speed| ≤ 1/10 ∧
  |a.nitroTimer - b.nitroTimer| ≤ 1/10

/-- Every numeric field within 1/10. -/
def runnerClose (a b : SnapshotRunner) : Prop :=
  |a.x - b.x| ≤ 1/10 ∧ |a.y - b.y| ≤ 1/10 ∧ |a.vx - b.vx| ≤ 1/10 ∧
  |a.vy - b.vy| ≤ 1/10 ∧ |a.angle - b.angle| ≤ 1/10 ∧
  |a.speed - b.speed| ≤ 1/10 ∧ |a.stamina - b.stamina| ≤ 1/10 ∧
  |a.playerHealth - b.playerHealth| ≤ 1/10 ∧
  |a.invisibleTimer - b.invisibleTimer| ≤ 1/10 ∧
  |a.speedBoostTimer - b.speedBoostTimer| ≤ 1/10 ∧
  |a.caughtTimer - b.caughtTimer| ≤ 1/10

/-- Numeric fields within 1/10; the caught flag, its attribution and the
    story index (discrete) exact. -/
def patientClose (a b : SnapshotPatient) : Prop :=
  |a.x - b.x| ≤ 1/10 ∧ |a.y - b.y| ≤ 1/10 ∧ |a.vx - b.vx| ≤ 1/10 ∧
  |a.vy - b.vy| ≤ 1/10 ∧ a.caught = b.caught ∧ a.caughtBy = b.caughtBy ∧
  |a.health - b.health| ≤ 1/10 ∧ |a.panicLevel - b.panicLevel| ≤ 1/10 ∧
  |a.stunTimer - b.stunTimer| ≤ 1/10 ∧ a.storyIdx = b.storyIdx

/-- Positions within 1/10; type tag and collected flag exact. -/
def powerUpClose (a b : SnapshotPowerUp) : Prop :=
  |a.x - b.x| ≤ 1/10 ∧ |a.y - b.y| ≤ 1/10 ∧
  a.type = b.type ∧ a.collected = b.collected

/-- Every numeric field within 1/10. -/
def trafficClose (a b : SnapshotTrafficCar) : Prop :=
  |a.x - b.x| ≤ 1/10 ∧ |a.y - b.y| ≤ 1/10 ∧ |a.vx - b.vx| ≤ 1/10 ∧
  |a.vy - b.vy| ≤ 1/10 ∧ |a.angle - b.angle| ≤ 1/10

/-- Type tag exact; timer and position within 1/10. -/
def activeEventClose (a b : ActiveEvent) : Prop :=
  a.type = b.type ∧ |a.timer - b.timer| ≤ 1/10 ∧
  |a.x - b.x| ≤ 1/10 ∧ |a.y - b.y| ≤ 1/10

/-- Snapshot equality up to quantization, with an adjustable tolerance
    `epsTs` on the timestamp: every other numeric field within 1/10, and
    every discrete/boolean field (flags, tags, screen, counters, the score
    pair) exact.  The claim as stated is `snapClose (1/10)`. -/
def snapClose (epsTs : ℚ) (a b : StateSnapshot) : Prop :=
  a.seq = b.seq ∧
  |a.ts - b.ts| ≤ epsTs ∧
  entClose a.amb1 b.amb1 ∧
  optRel entClose a.amb2 b.amb2 ∧
  optRel runnerClose a.runner1 b.runner1 ∧
  listRel patientClose a.patients b.patients ∧
  listRel powerUpClose a.powerUps b.powerUps ∧
  listRel trafficClose a.trafficCars b.trafficCars ∧
  |a.timeLeft - b.timeLeft| ≤ 1/10 ∧
  a.scores = b.scores ∧
  a.screen = b.screen ∧
  a.comboCount = b.comboCount ∧
  |a.comboTimer - b.comboTimer| ≤ 1/10 ∧
  |a.cameraShake - b.cameraShake| ≤ 1/10 ∧
  a.audioEvents = b.audioEvents ∧
  a.flashMessages = b.flashMessages ∧
  a.derbyRound = b.derbyRound ∧
  a.derbyWins = b.derbyWins ∧
  optRel activeEventClose a.activeEvent b.activeEvent ∧
  a.nearMissCombo = b.nearMissCombo ∧
  a.isDrifting = b.isDrifting

/-- The shape `createSnapshot` always produces, on which the codec is
    lossless-up-to-quantization: `nearMissCombo` and `isDrifting` are set,
    `derbyWins` travels with `derbyRound`, and no patient carries the
    unserialized `caughtBy` attribution. -/
def snapWellFormed (s : StateSnapshot) : Prop :=
  s.nearMissCombo.isSome = true ∧
  s.isDrifting.isSome = true ∧
  (s.derbyRound = none → s.derbyWins = none) ∧
  ∀ p ∈ s.patients, p.caughtBy = none

-- === CONCRETE EXAMPLE VALUES ===

/-- A minimal well-formed snapshot (shape of `createSnapshot` output). -/
def baseSnap : StateSnapshot where
  seq := 0
  ts := 0
  amb1 := { x := 0, y := 0, vx := 0, vy := 0, angle := 0, health := 100, speed := 0, nitroTimer := 0 }
  amb2 := none
  runner1 := none
  patients := []
  powerUps := []
  trafficCars := []
  timeLeft := 60
  scores := (0, 0)
  screen := "playing"
  comboCount := 0
  comboTimer := 0
  cameraShake := 0
  audioEvents := []
  flashMessages := []
  derbyRound := none
  derbyWins := none
  activeEvent := none
  nearMissCombo := some 0
  isDrifting := some false

/-- A snapshot whose timestamp sits exactly between two integers. -/
def tsHalfSnap : StateSnapshot := { baseSnap with ts := 1/2 }

/-- Example patients for interpolation (not caught). -/
def patA : SnapshotPatient :=
  { x := 1, y := 2, vx := 0, vy := 0, caught := false, caughtBy := none,
    health := 50, panicLevel := 0, stunTimer := 0, storyIdx := 0 }

/-- Example patient at a different position. -/
def patB : SnapshotPatient := { patA with x := 3, y := 6 }

/-- Example traffic cars. -/
def tcA : SnapshotTrafficCar := { x := 10, y := 0, vx := 1, vy := 0, angle := 0 }

/-- Example traffic car at a different position. -/
def tcB : SnapshotTrafficCar := { x := 20, y := 8, vx := 1, vy := 0, angle := 0 }

/-- Example power-ups differing only in x. -/
def puA : SnapshotPowerUp := { x := 0, y := 0, type := "nitro", collected := false }

/-- Example power-up at x = 5. -/
def puB : SnapshotPowerUp := { puA with x := 5 }

/-- Example secondary ambulance / runner values. -/
def entB : SnapshotEntity :=
  { x := 10, y := 20, vx := 2, vy := 4, angle := 0, health := 90, speed := 5, nitroTimer := 1 }

/-- Example runner. -/
def runA : SnapshotRunner :=
  { x := 0, y := 0, vx := 0, vy := 0, angle := 0, speed := 0, stamina := 100,
    playerHealth := 100, invisibleTimer := 0, speedBoostTimer := 0, caughtTimer := 0 }

/-- Example runner at a different position. -/
def runB : SnapshotRunner := { runA with x := 8, y := 4 }

/-- "Previous" snapshot for interpolation examples. -/
def prevW : StateSnapshot :=
  { baseSnap with
    amb2 := some baseSnap.amb1
    runner1 := some runA
    patients := [patA]
    trafficCars := [tcA]
    powerUps := [puA] }

/-- "Current" snapshot for interpolation examples. -/
def currW : StateSnapshot :=
  { baseSnap with
    ts := 100
    amb1 := entB
    amb2 := some entB
    runner1 := some runB
    patients := [patB]
    trafficCars := [tcB]
    powerUps := [puB] }

-- ==================== THEOREMS ====================

/-- C10: for every Keys record, `serializeKeys` lands in [0, 63] (it returns
    a natural number, so the lower bound is implicit) and
    `deserializeKeys ∘ serializeKeys` is the identity. -/
theorem keys_roundtrip_bitmask (k : Keys) :
    serializeKeys k ≤ 63 ∧ deserializeKeys (serializeKeys k) = k := by
  rcases k with ⟨u, d, l, r, s, h⟩
  cases u <;> cases d <;> cases l <;> cases r <;> cases s <;> cases h <;>
    exact ⟨by decide, by decide⟩

/-- Witness for C10's theorem (its binder is a data value, not a proposition,
    but we record a concrete evaluation anyway). -/
theorem keys_roundtrip_bitmask_witness :
    serializeKeys ⟨true, false, true, false, false, true⟩ ≤ 63 ∧
    deserializeKeys (serializeKeys ⟨true, false, true, false, false, true⟩) =
      ⟨true, false, true, false, false, true⟩ :=
  keys_roundtrip_bitmask ⟨true, false, true, false, false, true⟩

/-- C2: on an open channel with backlog above the 128 KB threshold,
    `sendReliable` never invokes the underlying send for `snapshot`/`keys`,
    and for every critical kind it always attempts the send whatever the
    backlog is. -/
theorem backpressure_policy (buf : ℕ) (hbuf : bufferLimit < buf) :
    sendDecision true buf .snapshot = false ∧
    sendDecision true buf .keys = false ∧
    ∀ b2 : ℕ,
      sendDecision true b2 .fullSync = true ∧ sendDecision true b2 .syncAck = true ∧
      sendDecision true b2 .start = true ∧ sendDecision true b2 .briefing = true ∧
      sendDecision true b2 .upgrade = true ∧ sendDecision true b2 .upgradeChoice = true ∧
      sendDecision true b2 .ready = true ∧ sendDecision true b2 .modeSelect = true ∧
      sendDecision true b2 .rematch = true ∧ sendDecision true b2 .chat = true := by
  refine ⟨?_, ?_, fun b2 => ?_⟩ <;>
    simp [sendDecision, isCritical, hbuf]

/-- Witness for C2 at a concrete backlog just above the threshold. -/
theorem backpressure_policy_witness :
    bufferLimit < 131073 ∧ sendDecision true 131073 .snapshot = false :=
  ⟨by decide, (backpressure_policy 131073 (by decide)).1⟩

/-- C3 counterexample: with backlog one byte above the threshold, a `ping`
    and a `pong` are dropped by `sendReliable` — heartbeats are NOT exempt
    from the backpressure rule (`isCritical` excludes them). -/
theorem ping_dropped_under_backpressure :
    sendDecision true (bufferLimit + 1) .ping = false ∧
    sendDecision true (bufferLimit + 1) .pong = false := by
  constructor <;> decide

/-- C3 amended: ping/pong obey the same backpressure rule as snapshot/keys
    (dropped above 128 KB of backlog, sent otherwise), and an incoming ping
    is answered immediately with a pong carrying the ping's sequence. -/
theorem heartbeat_backpressure :
    (∀ buf : ℕ, bufferLimit < buf →
       sendDecision true buf .ping = false ∧ sendDecision true buf .pong = false) ∧
    (∀ buf : ℕ, buf ≤ bufferLimit →
       sendDecision true buf .ping = true ∧ sendDecision true buf .pong = true) ∧
    (∀ (g : Bool) (now lps : ℚ) (st : SessionState) (sq ts : ℚ) (dta : NetData),
       handleRaw g now lps st (.parsed ⟨.ping, sq, ts, dta⟩) = (st, [.sentPong sq])) := by
  refine ⟨fun buf h => ?_, fun buf h => ?_, fun g now lps st sq ts dta => rfl⟩
  · constructor <;> simp [sendDecision, isCritical, h]
  · constructor <;> simp [sendDecision, isCritical, Nat.not_lt.mpr h]

/-- Witness for C3's amended theorem. -/
theorem heartbeat_backpressure_witness :
    bufferLimit < 131073 ∧ sendDecision true 131073 .ping = false :=
  ⟨by decide, (heartbeat_backpressure.1 131073 (by decide)).1⟩

/-- C9: a raw datum that fails to parse is only logged — the session state
    (ping statistics and stored snapshot pair) is untouched; a guest
    `snapshot` message whose payload fails to deserialize likewise leaves the
    stored snapshots unchanged; and a malformed datum does not stop the
    processing of subsequent messages. -/
theorem malformed_message_discarded :
    (∀ (g : Bool) (now lps : ℚ) (st : SessionState),
       handleRaw g now lps st .malformed = (st, [.loggedParseError])) ∧
    (∀ (now lps : ℚ) (st : SessionState) (sq ts : ℚ),
       handleRaw true now lps st (.parsed ⟨.snapshot, sq, ts, .snapshotStr none⟩) =
         (st, [.delivered .snapshot])) ∧
    (∀ (g : Bool) (now lps : ℚ) (st : SessionState) (rest : List RawDatum),
       (handleAll g now lps st (.malformed :: rest)).1 =
         (handleAll g now lps st rest).1) := by
  refine ⟨fun g now lps st => rfl, fun now lps st sq ts => rfl,
    fun g now lps st rest => ?_⟩
  simp [handleAll, handleRaw]

/-- C5: with no acknowledgement the host sends the payload 1 + 3 times (the
    initial send plus all three retries, whose delays strictly increase);
    a retry scheduled at delay `d` never fires once an ack arrived at or
    before `d`; and the total send count never exceeds 1 + 3. -/
theorem fullsync_retry_budget :
    fullSyncSendCount none = 1 + 3 ∧
    List.Chain' (· < ·) retryDelays ∧
    (∀ ta : ℚ, ∀ d ∈ retryDelays, ta ≤ d → timerFires (some ta) d = false) ∧
    (∀ ta : ℚ, fullSyncSendCount (some ta) ≤ 1 + 3) := by
  refine ⟨rfl, ?_, fun ta d _ hle => ?_, fun ta => ?_⟩
  · simp [retryDelays, List.chain'_cons]
    norm_num
  · simp [timerFires, decide_eq_false_iff_not, not_lt, hle]
  · have h := List.length_filter_le (timerFires (some ta)) retryDelays
    have h3 : retryDelays.length = 3 := rfl
    simp only [fullSyncSendCount]
    omega

/-- Witness for C5's theorem: an ack at t = 600 ms silences the 1200 ms timer. -/
theorem fullsync_retry_budget_witness :
    (600 : ℚ) ≤ 1200 ∧ timerFires (some 600) 1200 = false :=
  ⟨by norm_num, fullsync_retry_budget.2.2.1 600 1200 (by decide) (by norm_num)⟩

/-- C8 counterexample: a session that reaches the terminal `disconnected`
    state (guest join timeout) leaves it again when `destroy()` runs — the
    code resets the state to `idle`, so `disconnected` is not preserved
    across the full operation set. -/
theorem disconnected_left_via_destroy :
    runNet [.joinRoom, .joinTimeout] = .disconnected ∧
    runNet [.joinRoom, .joinTimeout, .destroy] = .idle ∧
    ConnectionState.idle ≠ .disconnected := by
  refine ⟨rfl, rfl, by decide⟩

/-- C8 amended: restricted to the failure-detection callbacks and timer
    events (timeouts, channel close/error, ping timeout, non-collision peer
    errors) `disconnected` is terminal and every transition moves forward
    along idle → offering/answering → connecting → connected → disconnected;
    the exceptions are exactly the session operations: `destroy` resets to
    `idle`, and createRoom/joinRoom/handleConnection/open start a new
    attempt. -/
theorem state_machine_detection_stable :
    (∀ e : NetEvent, isDetectionEvent e = true → stepState .disconnected e = .disconnected) ∧
    (∀ (s : ConnectionState) (e : NetEvent), isDetectionEvent e = true →
       stateRank s ≤ stateRank (stepState s e)) ∧
    stepState .disconnected .destroy = .idle ∧
    runNet [.createRoom, .incomingConn, .connOpen] = .connected := by
  refine ⟨by decide, by decide, rfl, rfl⟩

/-- Witness for C8's amended theorem: the close callback cannot resurrect a
    disconnected session. -/
theorem state_machine_detection_stable_witness :
    isDetectionEvent .connClose = true ∧ stepState .disconnected .connClose = .disconnected :=
  ⟨by decide, state_machine_detection_stable.1 .connClose (by decide)⟩

/-- Once the interval timer is stopped, tick events change nothing. -/
theorem liveRun_inactive (s : PingLoop) (h : s.active = false) :
    ∀ ts : List ℚ, liveRun true s (ts.map .tick) = s := by
  intro ts
  induction ts with
  | nil => rfl
  | cons t rest ih =>
    have hstep : pingTick true t s = s := by
      simp [pingTick, h]
    simp only [List.map_cons, liveRun, hstep]
    exact ih

/-- Exact behaviour of the heartbeat loop when no pong ever arrives: nothing
    happens until some tick falls more than 20 s after the `startPing` time;
    the first such tick transitions to `disconnected` once and disarms the
    timer. -/
theorem liveRun_no_pong (t0 : ℚ) (h0 : 0 < t0) (ts : List ℚ) :
    liveRun true (startPingState t0) (ts.map .tick) =
      if ∃ t ∈ ts, t0 + pongTimeoutMs < t
      then { lastPongReceived := t0, active := false,
             connState := .disconnected, disconnectCount := 1 }
      else startPingState t0 := by
  induction ts with
  | nil => simp [liveRun]
  | cons t rest ih =>
    by_cases hgt : t0 + pongTimeoutMs < t
    · have hstep : pingTick true t (startPingState t0) =
          { lastPongReceived := t0, active := false,
            connState := .disconnected, disconnectCount := 1 } := by
        simp only [pingTick, startPingState]
        rw [if_neg (by simp), if_pos ⟨h0, by linarith⟩]
        simp
      simp only [List.map_cons, liveRun, hstep]
      rw [liveRun_inactive _ rfl rest]
      simp [hgt]
    · have hstep : pingTick true t (startPingState t0) = startPingState t0 := by
        simp only [pingTick, startPingState]
        rw [if_neg (by simp), if_neg (by rintro ⟨-, hbad⟩; exact hgt (by linarith)),
          if_neg (by simp)]
      simp only [List.map_cons, liveRun, hstep, ih]
      have : (∃ x ∈ t :: rest, t0 + pongTimeoutMs < x) ↔
          (∃ x ∈ rest, t0 + pongTimeoutMs < x) := by
        simp [hgt]
      rw [if_congr this rfl rfl]

/-- When every tick falls within 20 s of the last recorded pong, the monitor
    never disconnects. -/
theorem liveRun_covered (evs : List LiveEvent) :
    ∀ s : PingLoop, s.active = true → s.connState = .connected →
      s.disconnectCount = 0 → 0 < s.lastPongReceived →
      (∀ t : ℚ, LiveEvent.pong t ∈ evs → 0 < t) →
      covered s.lastPongReceived evs →
      (liveRun true s evs).connState = .connected ∧
        (liveRun true s evs).disconnectCount = 0 ∧
        (liveRun true s evs).active = true := by
  induction evs with
  | nil => exact fun s hA hC hD hP _ _ => ⟨hC, hD, hA⟩
  | cons e rest ih =>
    intro s hA hC hD hP hpos hcov
    cases e with
    | tick t =>
      obtain ⟨hle, hcov2⟩ := hcov
      have hstep : pingTick true t s = s := by
        simp only [pingTick, hA]
        rw [if_neg (by simp), if_neg (by rintro ⟨-, hbad⟩; linarith), if_neg (by simp)]
      simp only [liveRun, hstep]
      exact ih s hA hC hD hP (fun t2 ht2 => hpos t2 (by simp [ht2])) hcov2
    | pong t =>
      have hpt : 0 < t := hpos t (by simp)
      simp only [liveRun, pongArrive]
      exact ih _ hA hC hD hpt (fun t2 ht2 => hpos t2 (by simp [ht2])) hcov

/-- C4 counterexample: a dead connection (no pong ever arrives) is still
    `connected` after ticks at 3 s, 6 s and 9 s — the 20 s timeout means a
    drop is NOT detected within single-digit seconds. -/
theorem dead_connection_undetected_at_nine_seconds :
    (liveRun true (startPingState 1) [.tick 3001, .tick 6001, .tick 9001]).connState =
      .connected ∧
    ConnectionState.connected ≠ .disconnected := by
  refine ⟨?_, by decide⟩
  norm_num [liveRun, pingTick, startPingState, pongTimeoutMs]

/-- C4 amended: with the code's 20 s timeout, if no pong ever arrives the
    monitor transitions to `disconnected` exactly once (as soon as a tick
    falls more than 20 s after `startPing`) and disarms the interval timer,
    and if every tick is within 20 s of the last recorded pong it never
    transitions.  Detection therefore happens only after the 20 s window,
    not within single-digit seconds. -/
theorem liveness_monitor_window :
    (∀ (t0 : ℚ) (ts : List ℚ), 0 < t0 → (∃ t ∈ ts, t0 + pongTimeoutMs < t) →
       (liveRun true (startPingState t0) (ts.map .tick)).connState = .disconnected ∧
       (liveRun true (startPingState t0) (ts.map .tick)).disconnectCount = 1 ∧
       (liveRun true (startPingState t0) (ts.map .tick)).active = false) ∧
    (∀ (t0 : ℚ) (evs : List LiveEvent), 0 < t0 →
       (∀ t : ℚ, LiveEvent.pong t ∈ evs → 0 < t) → covered t0 evs →
       (liveRun true (startPingState t0) evs).connState = .connected ∧
       (liveRun true (startPingState t0) evs).disconnectCount = 0) := by
  constructor
  · intro t0 ts h0 hex
    rw [liveRun_no_pong t0 h0 ts, if_pos hex]
    exact ⟨rfl, rfl, rfl⟩
  · intro t0 evs h0 hpos hcov
    have h := liveRun_covered evs (startPingState t0) rfl rfl rfl h0 hpos hcov
    exact ⟨h.1, h.2.1⟩

/-- Witness for C4's amended theorem: one tick at 21 001 ms after a start at
    1 ms detects the dead connection; one pong at 15 000 ms keeps a tick at
    20 500 ms from disconnecting. -/
theorem liveness_monitor_window_witness :
    ((0 : ℚ) < 1 ∧ (1 : ℚ) + pongTimeoutMs < 21002) ∧
    (liveRun true (startPingState 1) [.tick 21002]).connState = .disconnected ∧
    (liveRun true (startPingState 1) [.pong 15000, .tick 20500]).connState = .connected := by
  refine ⟨⟨by norm_num, by norm_num [pongTimeoutMs]⟩, ?_, ?_⟩
  · exact (liveness_monitor_window.1 1 [21002] (by norm_num)
      ⟨21002, by simp, by norm_num [pongTimeoutMs]⟩).1
  · exact (liveness_monitor_window.2 1 [.pong 15000, .tick 20500] (by norm_num)
      (by intro t ht; simp at ht; rw [ht]; norm_num)
      ⟨by norm_num [pongTimeoutMs], trivial⟩).1

/-- The embedded `Math.PI` is positive. -/
theorem piQ_pos : (0 : ℚ) < piQ := by norm_num [piQ]

/-- The first while loop leaves its argument at or below π. -/
theorem normAngleUp_le (d : ℚ) : normAngleUp d ≤ piQ := by
  induction d using normAngleUp.induct with
  | case1 d h ih =>
    rw [normAngleUp, dif_pos h]
    exact ih
  | case2 d h =>
    rw [normAngleUp, dif_neg h]
    exact le_of_not_lt h

/-- The first while loop subtracts a whole number of turns. -/
theorem normAngleUp_congr (d : ℚ) : ∃ k : ℤ, normAngleUp d = d - 2 * piQ * k := by
  induction d using normAngleUp.induct with
  | case1 d h ih =>
    obtain ⟨k, hk⟩ := ih
    refine ⟨k + 1, ?_⟩
    rw [normAngleUp, dif_pos h, hk]
    push_cast
    ring
  | case2 d h =>
    refine ⟨0, ?_⟩
    rw [normAngleUp, dif_neg h]
    push_cast
    ring

/-- The second while loop leaves its argument at or above −π. -/
theorem normAngleDown_ge (d : ℚ) : -piQ ≤ normAngleDown d := by
  induction d using normAngleDown.induct with
  | case1 d h ih =>
    rw [normAngleDown, dif_pos h]
    exact ih
  | case2 d h =>
    rw [normAngleDown, dif_neg h]
    exact le_of_not_lt h

/-- The second while loop preserves an upper bound of π. -/
theorem normAngleDown_le (d : ℚ) : d ≤ piQ → normAngleDown d ≤ piQ := by
  induction d using normAngleDown.induct with
  | case1 d h ih =>
    intro _
    rw [normAngleDown, dif_pos h]
    exact ih (by have := piQ_pos; linarith)
  | case2 d h =>
    intro hle
    rw [normAngleDown, dif_neg h]
    exact hle

/-- The second while loop adds a whole number of turns. -/
theorem normAngleDown_congr (d : ℚ) : ∃ k : ℤ, normAngleDown d = d + 2 * piQ * k := by
  induction d using normAngleDown.induct with
  | case1 d h ih =>
    obtain ⟨k, hk⟩ := ih
    refine ⟨k + 1, ?_⟩
    rw [normAngleDown, dif_pos h, hk]
    push_cast
    ring
  | case2 d h =>
    refine ⟨0, ?_⟩
    rw [normAngleDown, dif_neg h]
    push_cast
    ring

/-- C7 counterexample: at `b - a = -π` exactly, the loops leave the
    difference at `-π`, which is congruent to π (take k = -1) and lies in
    the claim's interval (−π, π] only as π — yet `lerpAngle 0 (-π) (1/2)`
    is `-π/2`, not the `π/2` the claimed formula `a + d·t` with
    d ∈ (−π, π] would give. -/
theorem lerpAngle_boundary_counterexample :
    ((-piQ < piQ ∧ piQ ≤ piQ) ∧ (∃ k : ℤ, piQ = (-piQ - 0) - 2 * piQ * k)) ∧
    lerpAngle 0 (-piQ) (1/2) ≠ 0 + piQ * (1/2) := by
  have hpi := piQ_pos
  have hup : normAngleUp (-piQ - 0) = -piQ - 0 := by
    rw [normAngleUp, dif_neg (by linarith)]
  have hdown : normAngleDown (-piQ - 0) = -piQ - 0 := by
    rw [normAngleDown, dif_neg (by linarith)]
  refine ⟨⟨⟨by linarith, le_refl _⟩, ⟨-1, by push_cast; ring⟩⟩, ?_⟩
  simp only [lerpAngle, hup, hdown]
  intro hbad
  have : piQ = 0 := by linarith
  exact absurd this (ne_of_gt hpi)

/-- C7 amended: `lerpAngle a b t = a + d·t` where `d` is `b − a` shifted by a
    whole number of turns into the closed interval [−π, π] (the code's loops
    map an exact `-π` boundary to itself rather than to π, so the interval
    is closed at both ends); and interpolating from 350° to 10° at t = 1/2
    lands at 2π — congruent to 0°, not 180°. -/
theorem lerpAngle_shortest_path :
    (∀ a b : ℚ, ∃ (d : ℚ) (k : ℤ),
       (∀ t : ℚ, lerpAngle a b t = a + d * t) ∧
       -piQ ≤ d ∧ d ≤ piQ ∧ d = (b - a) - 2 * piQ * k) ∧
    lerpAngle (350 * (piQ / 180)) (10 * (piQ / 180)) (1/2) = 2 * piQ ∧
    (∃ k : ℤ, 2 * piQ - 0 = 2 * piQ * k) ∧ 2 * piQ ≠ piQ := by
  have hpi := piQ_pos
  refine ⟨fun a b => ?_, ?_, ⟨1, by push_cast; ring⟩, by linarith⟩
  · obtain ⟨k1, hk1⟩ := normAngleUp_congr (b - a)
    obtain ⟨k2, hk2⟩ := normAngleDown_congr (normAngleUp (b - a))
    refine ⟨normAngleDown (normAngleUp (b - a)), k1 - k2, fun t => rfl,
      normAngleDown_ge _, normAngleDown_le _ (normAngleUp_le _), ?_⟩
    rw [hk2, hk1]
    push_cast
    ring
  · have harg : 10 * (piQ / 180) - 350 * (piQ / 180) = -(17 * piQ / 9) := by ring
    have hup : normAngleUp (-(17 * piQ / 9)) = -(17 * piQ / 9) := by
      rw [normAngleUp, dif_neg (by linarith)]
    have hstep : -(17 * piQ / 9) + piQ * 2 = piQ / 9 := by ring
    have hdown : normAngleDown (-(17 * piQ / 9)) = piQ / 9 := by
      rw [normAngleDown, dif_pos (by linarith), hstep,
        normAngleDown, dif_neg (by linarith)]
    simp only [lerpAngle, harg, hup, hdown]
    ring

/-- C6 counterexample: power-up positions are never interpolated — at t = 0
    the result carries `curr`'s power-up list, so a position field of the
    result (x = 5) differs from `prev`'s value (x = 0). -/
theorem interpolate_powerup_not_prev_at_zero :
    (interpolateSnapshots { baseSnap with powerUps := [puA] }
        { baseSnap with powerUps := [puB] } 0).powerUps.map SnapshotPowerUp.x = [5] ∧
    ({ baseSnap with powerUps := [puA] } : StateSnapshot).powerUps.map SnapshotPowerUp.x = [0] ∧
    (5 : ℚ) ≠ 0 := by
  refine ⟨rfl, rfl, by norm_num⟩

/-- Clamping to [0,1] is idempotent. -/
theorem clamp01_idem (t : ℚ) : max 0 (min 1 (max 0 (min 1 t))) = max 0 (min 1 t) := by
  have h0 : (0:ℚ) ≤ max 0 (min 1 t) := le_max_left _ _
  have h1 : max 0 (min 1 t) ≤ 1 := max_le zero_le_one (min_le_left _ _)
  rw [min_eq_right h1, max_eq_right h0]

/-- C6 amended: the interpolation fraction is clamped to [0,1] before use,
    and the boundary/midpoint identities hold for the position fields that
    are actually interpolated — the primary and secondary vehicle, the
    runner, and the index-wise paired non-caught patients and traffic cars:
    t = 0 gives prev's positions, t = 1 curr's, t = 1/2 the arithmetic
    midpoint.  Power-up positions (and entities with no prev partner, and
    caught patients) always snap to curr. -/
theorem interpolate_boundary_midpoint :
    (∀ (prev curr : StateSnapshot) (t : ℚ),
       interpolateSnapshots prev curr t =
         interpolateSnapshots prev curr (max 0 (min 1 t))) ∧
    (∀ prev curr : StateSnapshot,
       ((interpolateSnapshots prev curr 0).amb1.x = prev.amb1.x ∧
        (interpolateSnapshots prev curr 0).amb1.y = prev.amb1.y) ∧
       ((interpolateSnapshots prev curr 1).amb1.x = curr.amb1.x ∧
        (interpolateSnapshots prev curr 1).amb1.y = curr.amb1.y) ∧
       ((interpolateSnapshots prev curr (1/2)).amb1.x = (prev.amb1.x + curr.amb1.x) / 2 ∧
        (interpolateSnapshots prev curr (1/2)).amb1.y = (prev.amb1.y + curr.amb1.y) / 2) ∧
       (∀ t : ℚ, (interpolateSnapshots prev curr t).powerUps = curr.powerUps) ∧
       (∀ pa ca : SnapshotEntity, prev.amb2 = some pa → curr.amb2 = some ca →
          (interpolateSnapshots prev curr 0).amb2.map SnapshotEntity.x = some pa.x ∧
          (interpolateSnapshots prev curr 1).amb2.map SnapshotEntity.x = some ca.x ∧
          (interpolateSnapshots prev curr (1/2)).amb2.map SnapshotEntity.x =
            some ((pa.x + ca.x) / 2)) ∧
       (∀ pr cr : SnapshotRunner, prev.runner1 = some pr → curr.runner1 = some cr →
          (interpolateSnapshots prev curr 0).runner1.map SnapshotRunner.x = some pr.x ∧
          (interpolateSnapshots prev curr 1).runner1.map SnapshotRunner.x = some cr.x ∧
          (interpolateSnapshots prev curr (1/2)).runner1.map SnapshotRunner.x =
            some ((pr.x + cr.x) / 2)) ∧
       (∀ (i : ℕ) (pp cp : SnapshotPatient),
          prev.patients[i]? = some pp → curr.patients[i]? = some cp → cp.caught = false →
          ((interpolateSnapshots prev curr 0).patients[i]?.map fun q => (q.x, q.y)) =
            some (pp.x, pp.y) ∧
          ((interpolateSnapshots prev curr 1).patients[i]?.map fun q => (q.x, q.y)) =
            some (cp.x, cp.y) ∧
          ((interpolateSnapshots prev curr (1/2)).patients[i]?.map fun q => (q.x, q.y)) =
            some ((pp.x + cp.x) / 2, (pp.y + cp.y) / 2)) ∧
       (∀ (i : ℕ) (pt ct : SnapshotTrafficCar),
          prev.trafficCars[i]? = some pt → curr.trafficCars[i]? = some ct →
          ((interpolateSnapshots prev curr 0).trafficCars[i]?.map fun q => (q.x, q.y)) =
            some (pt.x, pt.y) ∧
          ((interpolateSnapshots prev curr 1).trafficCars[i]?.map fun q => (q.x, q.y)) =
            some (ct.x, ct.y) ∧
          ((interpolateSnapshots prev curr (1/2)).trafficCars[i]?.map fun q => (q.x, q.y)) =
            some ((pt.x + ct.x) / 2, (pt.y + ct.y) / 2))) := by
  have m0 : min (1:ℚ) 0 = 0 := min_eq_right zero_le_one
  have m1 : min (1:ℚ) 1 = 1 := min_self 1
  have mh : min (1:ℚ) (2⁻¹) = 2⁻¹ := min_eq_right (by norm_num)
  have c0 : max (0:ℚ) (min 1 0) = 0 := by rw [m0, max_self]
  have c1 : max (0:ℚ) (min 1 1) = 1 := by rw [m1, max_eq_right zero_le_one]
  constructor
  · intro prev curr t
    simp only [interpolateSnapshots]
    rw [clamp01_idem]
  · intro prev curr
    refine ⟨⟨?_, ?_⟩, ⟨?_, ?_⟩, ⟨?_, ?_⟩, fun t => rfl, ?_, ?_, ?_, ?_⟩
    · simp [interpolateSnapshots, c0, m0, lerpEntity, lerpNum]
    · simp [interpolateSnapshots, c0, m0, lerpEntity, lerpNum]
    · simp [interpolateSnapshots, c1, m1, lerpEntity, lerpNum]
    · simp [interpolateSnapshots, c1, m1, lerpEntity, lerpNum]
    · simp [interpolateSnapshots, lerpEntity, lerpNum]
      rw [mh]
      ring
    · simp [interpolateSnapshots, lerpEntity, lerpNum]
      rw [mh]
      ring
    · intro pa ca hpa hca
      refine ⟨?_, ?_, ?_⟩
      · simp [interpolateSnapshots, hpa, hca, c0, m0, lerpEntity, lerpNum]
      · simp [interpolateSnapshots, hpa, hca, c1, m1, lerpEntity, lerpNum]
      · simp [interpolateSnapshots, hpa, hca, lerpEntity, lerpNum]
        rw [mh]
        ring
    · intro pr cr hpr hcr
      refine ⟨?_, ?_, ?_⟩
      · simp [interpolateSnapshots, hpr, hcr, c0, m0, lerpRunner, lerpNum]
      · simp [interpolateSnapshots, hpr, hcr, c1, m1, lerpRunner, lerpNum]
      · simp [interpolateSnapshots, hpr, hcr, lerpRunner, lerpNum]
        rw [mh]
        ring
    · intro i pp cp hpp hcp hcaught
      refine ⟨?_, ?_, ?_⟩
      · simp [interpolateSnapshots, List.getElem?_map, List.getElem?_enum,
          hpp, hcp, hcaught, c0, m0, lerpNum]
      · simp [interpolateSnapshots, List.getElem?_map, List.getElem?_enum,
          hpp, hcp, hcaught, c1, m1, lerpNum]
      · simp [interpolateSnapshots, List.getElem?_map, List.getElem?_enum,
          hpp, hcp, hcaught, lerpNum]
        rw [mh]
        constructor <;> ring
    · intro i pt ct hpt hct
      refine ⟨?_, ?_, ?_⟩
      · simp [interpolateSnapshots, List.getElem?_map, List.getElem?_enum,
          hpt, hct, c0, m0, lerpNum]
      · simp [interpolateSnapshots, List.getElem?_map, List.getElem?_enum,
          hpt, hct, c1, m1, lerpNum]
      · simp [interpolateSnapshots, List.getElem?_map, List.getElem?_enum,
          hpt, hct, lerpNum]
        rw [mh]
        constructor <;> ring

/-- C6 witness: the patients clause of the amended theorem at concrete
    snapshots — at t = 0 the paired non-caught patient sits at prev's
    position (1, 2). -/
theorem interpolate_boundary_midpoint_witness :
    prevW.patients[0]? = some patA ∧ currW.patients[0]? = some patB ∧
    patB.caught = false ∧
    ((interpolateSnapshots prevW currW 0).patients[0]?.map fun q => (q.x, q.y)) =
      some (patA.x, patA.y) :=
  ⟨rfl, rfl, rfl,
    ((interpolate_boundary_midpoint.2 prevW currW).2.2.2.2.2.2.1 0 patA patB
      rfl rfl rfl).1⟩

/-- JS `Math.round` is within 1/2 of its argument. -/
theorem abs_sub_jsRound (q : ℚ) : |q - jsRound q| ≤ 1/2 := by
  have h1 : (⌊q + 1/2⌋ : ℚ) ≤ q + 1/2 := Int.floor_le _
  have h2 : q + 1/2 - 1 < (⌊q + 1/2⌋ : ℚ) := Int.sub_one_lt_floor _
  simp only [jsRound]
  rw [abs_le]
  constructor <;> linarith

/-- One-decimal quantization is within 1/10 (indeed 1/20) of its argument. -/
theorem abs_sub_roundNum (q : ℚ) : |q - roundNum q| ≤ 1/10 := by
  have h1 : (⌊q * 10 + 1/2⌋ : ℚ) ≤ q * 10 + 1/2 := Int.floor_le _
  have h2 : q * 10 + 1/2 - 1 < (⌊q * 10 + 1/2⌋ : ℚ) := Int.sub_one_lt_floor _
  simp only [roundNum]
  rw [abs_le]
  constructor <;> linarith

/-- The 0/1 encoding of a boolean decodes by truthiness to the boolean. -/
theorem caught01_roundtrip (b : Bool) : decide ((if b then (1:ℚ) else 0) ≠ 0) = b := by
  cases b <;> simp

/-- Index-wise relation between a list and its image under a map. -/
theorem listRel_map {α : Type} {R : α → α → Prop} (f : α → α) :
    ∀ l : List α, (∀ a ∈ l, R a (f a)) → listRel R l (l.map f)
  | [], _ => trivial
  | a :: as, h =>
    ⟨h a (by simp), listRel_map f as fun x hx => h x (by simp [hx])⟩

/-- Option-wise relation between an option and its image under a map. -/
theorem optRel_map {α : Type} {R : α → α → Prop} (f : α → α) (o : Option α)
    (h : ∀ a, R a (f a)) : optRel R o (o.map f) := by
  cases o with
  | none => trivial
  | some a => exact h a

/-- The entity tuple round-trips within 1/10 per numeric field. -/
theorem entClose_enc (e : SnapshotEntity) : entClose e (encEntity e) :=
  ⟨abs_sub_roundNum e.x, abs_sub_roundNum e.y, abs_sub_roundNum e.vx,
   abs_sub_roundNum e.vy, abs_sub_roundNum e.angle, by simp [encEntity],
   abs_sub_roundNum e.speed, abs_sub_roundNum e.nitroTimer⟩

/-- The runner tuple round-trips within 1/10 per numeric field. -/
theorem runnerClose_enc (r : SnapshotRunner) : runnerClose r (encRunner r) :=
  ⟨abs_sub_roundNum r.x, abs_sub_roundNum r.y, abs_sub_roundNum r.vx,
   abs_sub_roundNum r.vy, abs_sub_roundNum r.angle, abs_sub_roundNum r.speed,
   abs_sub_roundNum r.stamina, by simp [encRunner],
   abs_sub_roundNum r.invisibleTimer, abs_sub_roundNum r.speedBoostTimer,
   abs_sub_roundNum r.caughtTimer⟩

/-- A patient with no `caughtBy` attribution survives encode + decode within
    1/10 on numeric fields and exactly on discrete ones. -/
theorem patientClose_encdec (p : SnapshotPatient) (hcb : p.caughtBy = none) :
    patientClose p
      { x := (encPatient p).x, y := (encPatient p).y, vx := (encPatient p).vx,
        vy := (encPatient p).vy,
        caught := decide ((encPatient p).caught01 ≠ (0:ℚ)), caughtBy := none,
        health := (encPatient p).health, panicLevel := (encPatient p).panicLevel,
        stunTimer := (encPatient p).stunTimer, storyIdx := (encPatient p).storyIdx } :=
  ⟨abs_sub_roundNum p.x, abs_sub_roundNum p.y, abs_sub_roundNum p.vx,
   abs_sub_roundNum p.vy, (caught01_roundtrip p.caught).symm, hcb,
   abs_sub_roundNum p.health, abs_sub_roundNum p.panicLevel,
   abs_sub_roundNum p.stunTimer, rfl⟩

/-- A power-up survives encode + decode. -/
theorem powerUpClose_encdec (pu : SnapshotPowerUp) :
    powerUpClose pu
      { x := (encPowerUp pu).x, y := (encPowerUp pu).y,
        type := (encPowerUp pu).type,
        collected := decide ((encPowerUp pu).collected01 ≠ (0:ℚ)) } :=
  ⟨abs_sub_roundNum pu.x, abs_sub_roundNum pu.y, rfl,
   (caught01_roundtrip pu.collected).symm⟩

/-- A traffic-car tuple round-trips within 1/10 per field. -/
theorem trafficClose_enc (tc : SnapshotTrafficCar) : trafficClose tc (encTrafficCar tc) :=
  ⟨abs_sub_roundNum tc.x, abs_sub_roundNum tc.y, abs_sub_roundNum tc.vx,
   abs_sub_roundNum tc.vy, abs_sub_roundNum tc.angle⟩

/-- C1 counterexample: a snapshot with timestamp 1/2 decodes to timestamp 1
    (`Math.round(snap.ts)` quantizes the timestamp to a whole integer), an
    error of 1/2 — beyond the claimed 0.1 bound on every numeric field. -/
theorem snapshot_roundtrip_ts_exceeds_tenth :
    (deserializeSnapshot (serializeSnapshot tsHalfSnap)).ts = 1 ∧
    tsHalfSnap.ts = 1/2 ∧
    ¬|tsHalfSnap.ts - (deserializeSnapshot (serializeSnapshot tsHalfSnap)).ts| ≤ 1/10 := by
  have h : (deserializeSnapshot (serializeSnapshot tsHalfSnap)).ts =
      ((⌊(1:ℚ)/2 + 1/2⌋ : ℤ) : ℚ) := rfl
  have h2 : ((⌊(1:ℚ)/2 + 1/2⌋ : ℤ) : ℚ) = 1 := by norm_num
  have habs : |(1:ℚ)/2 - 1| = 1/2 := by
    rw [abs_of_nonpos (by norm_num)]
    norm_num
  refine ⟨h.trans h2, rfl, ?_⟩
  rw [show tsHalfSnap.ts = 1/2 from rfl, h.trans h2, habs]
  norm_num

/-- C1 amended: for every snapshot of the shape `createSnapshot` produces
    (`nearMissCombo`/`isDrifting` set, `derbyWins` only alongside
    `derbyRound`, no `caughtBy`), decoding the encoding agrees within 1/2 on
    the timestamp (which is rounded to a whole integer), within 1/10 on every
    other numeric field, and exactly on every discrete or boolean field. -/
theorem snapshot_roundtrip_quantized (S : StateSnapshot) (hwf : snapWellFormed S) :
    snapClose (1/2) S (deserializeSnapshot (serializeSnapshot S)) := by
  obtain ⟨hnm, hdrift, hderby, hcb⟩ := hwf
  refine ⟨rfl, abs_sub_jsRound S.ts, entClose_enc S.amb1,
    optRel_map encEntity S.amb2 entClose_enc,
    optRel_map encRunner S.runner1 runnerClose_enc,
    ?_, ?_, ?_,
    abs_sub_roundNum S.timeLeft, rfl, rfl, rfl,
    abs_sub_roundNum S.comboTimer, abs_sub_roundNum S.cameraShake, rfl, rfl,
    rfl, ?_, ?_, ?_, ?_⟩
  · show listRel patientClose S.patients ((S.patients.map encPatient).map _)
    rw [List.map_map]
    exact listRel_map _ S.patients fun p hp => patientClose_encdec p (hcb p hp)
  · show listRel powerUpClose S.powerUps ((S.powerUps.map encPowerUp).map _)
    rw [List.map_map]
    exact listRel_map _ S.powerUps fun pu _ => powerUpClose_encdec pu
  · exact listRel_map encTrafficCar S.trafficCars fun tc _ => trafficClose_enc tc
  · show S.derbyWins = _
    cases hd : S.derbyRound with
    | none =>
      simp only [serializeSnapshot, deserializeSnapshot, hd]
      exact hderby hd
    | some dr =>
      simp only [serializeSnapshot, deserializeSnapshot, hd]
  · exact optRel_map _ S.activeEvent fun e =>
      ⟨rfl, abs_sub_roundNum e.timer, abs_sub_roundNum e.x, abs_sub_roundNum e.y⟩
  · show S.nearMissCombo = _
    obtain ⟨v, hv⟩ := Option.isSome_iff_exists.mp hnm
    by_cases hv0 : v = 0 <;>
      simp only [serializeSnapshot, deserializeSnapshot, hv, hv0] <;>
      simp [hv0]
  · show S.isDrifting = _
    obtain ⟨b, hb⟩ := Option.isSome_iff_exists.mp hdrift
    cases b <;> simp only [serializeSnapshot, deserializeSnapshot, hb] <;> simp

/-- Witness for C1's amended theorem at a concrete well-formed snapshot. -/
theorem snapshot_roundtrip_quantized_witness :
    snapWellFormed prevW ∧
    snapClose (1/2) prevW (deserializeSnapshot (serializeSnapshot prevW)) :=
  ⟨⟨rfl, rfl, fun _ => rfl, by decide⟩,
   snapshot_roundtrip_quantized prevW ⟨rfl, rfl, fun _ => rfl, by decide⟩⟩

end AmbChase
